import Mathlib

/-!
Shallow embedding of the EagleBank API ledger core
(`src/services/transactionService.ts`, `src/services/accountService.ts`,
`src/controllers/accountController.ts`, `src/middleware/validation.ts`,
`src/routes/*`), together with proofs of the specified properties.

Modelling conventions:
* JavaScript numbers used as monetary amounts are modelled as `ℚ`;
  a raw JSON number (which may be `NaN` or `±Infinity`) is modelled by
  `JsonNum`.
* The Prisma store is a pure state `DB`; `prisma.$transaction` (the
  all-or-nothing unit performing the transaction-row insert and the
  balance update) is modelled as a single state transition.
* Database-generated ids and `createdAt` timestamps are passed as
  explicit extra arguments (`newId`, `now`).
* Errors mirror `createError(message, statusCode)` from
  `src/middleware/errorHandler.ts`.
-/

namespace EagleBank

/-- One row of the `Account` table (Prisma model `Account`). -/
structure Account where
  id : String
  accountNumber : String
  userId : String
  balance : ℚ
  currency : String
  type : String
  status : String
deriving Repr, DecidableEq

/-- One row of the `Transaction` table (Prisma model `Transaction`). -/
structure TxRecord where
  id : String
  type : String
  amount : ℚ
  description : String
  accountId : String
  balanceBefore : ℚ
  balanceAfter : ℚ
  createdAt : Nat
deriving Repr, DecidableEq

/-- The persistent store: user ids, account rows, transaction rows.
Transaction rows are kept as a plain list; ordering queries sort by
`createdAt` explicitly, as the source's `orderBy: { createdAt: 'desc' }`
does. -/
structure DB where
  users : List String
  accounts : List Account
  transactions : List TxRecord
deriving Repr, DecidableEq

/-- A typed error as produced by `createError` in
`src/middleware/errorHandler.ts`: a message plus an HTTP status code. -/
structure ApiError where
  message : String
  statusCode : Nat
deriving Repr, DecidableEq

/-- `createError(message, statusCode)` from `src/middleware/errorHandler.ts`. -/
def createError (message : String) (statusCode : Nat) : ApiError :=
  ⟨message, statusCode⟩

instance exceptDecEq {ε α : Type} [DecidableEq ε] [DecidableEq α] :
    DecidableEq (Except ε α) := fun x y =>
  match x, y with
  | Except.error a, Except.error b =>
    if h : a = b then isTrue (by rw [h])
    else isFalse (by intro hc; injection hc; contradiction)
  | Except.error _, Except.ok _ => isFalse (by intro hc; exact Except.noConfusion hc)
  | Except.ok _, Except.error _ => isFalse (by intro hc; exact Except.noConfusion hc)
  | Except.ok a, Except.ok b =>
    if h : a = b then isTrue (by rw [h])
    else isFalse (by intro hc; injection hc; contradiction)

/-- The `transactionData` argument of
`TransactionService.createTransaction`.  The `type` field is a plain
string: at runtime the service receives whatever string survived the
Zod schema, which accepts more than the two types in the TypeScript
annotation. -/
structure TxInput where
  type : String
  amount : ℚ
  description : Option String
deriving Repr, DecidableEq

/-- `prisma.account.findFirst({ where: { id: accountId, userId } })`. -/
def findAccountOwned (db : DB) (accountId userId : String) : Option Account :=
  db.accounts.find? (fun a => a.id == accountId && a.userId == userId)

/-- JavaScript `x || dflt` for an optional string (empty string is falsy),
as used for the transaction description default. -/
def jsDefaultStr (s : Option String) (dflt : String) : String :=
  match s with
  | none => dflt
  | some "" => dflt
  | some v => v

/-- `tx.transaction.create(...)` inside the `$transaction` scope:
prepends the new row. -/
def insertTransaction (db : DB) (t : TxRecord) : DB :=
  { db with transactions := t :: db.transactions }

/-- `tx.account.update({ where: { id: accountId }, data: { balance } })`
inside the `$transaction` scope. -/
def updateBalance (db : DB) (accountId : String) (newBalance : ℚ) : DB :=
  { db with
    accounts := db.accounts.map (fun a =>
      if a.id == accountId then { a with balance := newBalance } else a) }

/-- `TransactionService.createTransaction(accountId, userId, transactionData)`
(`src/services/transactionService.ts`, lines 9-89).  Returns the
post-state together with the result; every error path leaves the state
untouched, and the `prisma.$transaction` block (insert + balance update)
is the single committing state transition. -/
def createTransaction (db : DB) (accountId userId : String) (tx : TxInput)
    (newId : String) (now : Nat) : DB × Except ApiError TxRecord :=
  match findAccountOwned db accountId userId with
  | none => (db, Except.error (createError "Account not found" 404))
  | some account =>
    if account.status ≠ "ACTIVE" then
      (db, Except.error
        (createError "Cannot perform transactions on inactive account" 400))
    else if tx.amount ≤ 0 then
      (db, Except.error (createError "Transaction amount must be positive" 400))
    else if tx.type == "WITHDRAWAL" && account.balance < tx.amount then
      (db, Except.error (createError "Insufficient funds" 400))
    else
      let newBalance :=
        if tx.type == "DEPOSIT" then account.balance + tx.amount
        else account.balance - tx.amount
      let record : TxRecord :=
        { id := newId
          type := tx.type
          amount := tx.amount
          description := jsDefaultStr tx.description (tx.type ++ " transaction")
          accountId := accountId
          balanceBefore := account.balance
          balanceAfter := newBalance
          createdAt := now }
      (updateBalance (insertTransaction db record) accountId newBalance,
       Except.ok record)

/-- Mapping a function that cannot change the truth of the predicate
commutes with `find?`. -/
theorem find?_map_pred_invariant {α : Type} (f : α → α) (p : α → Bool)
    (hp : ∀ a, p (f a) = p a) :
    ∀ l : List α, (l.map f).find? p = (l.find? p).map f
  | [] => rfl
  | a :: rest => by
    cases hpa : p a with
    | false =>
      rw [List.map_cons, List.find?_cons_of_neg, List.find?_cons_of_neg]
      · exact find?_map_pred_invariant f p hp rest
      · simp [hpa]
      · rw [hp]; simp [hpa]
    | true =>
      rw [List.map_cons, List.find?_cons_of_pos, List.find?_cons_of_pos]
      · rfl
      · exact hpa
      · rw [hp]; exact hpa

/-- Updating a balance does not disturb the owned-account lookup:
the lookup after `updateBalance` is the lookup before, with the
balance field rewritten. -/
theorem findAccountOwned_updateBalance (db : DB) (accountId userId : String)
    (v : ℚ) :
    findAccountOwned (updateBalance db accountId v) accountId userId =
      (findAccountOwned db accountId userId).map
        (fun a => { a with balance := v }) := by
  unfold findAccountOwned updateBalance
  have hp : ∀ a : Account,
      (((if a.id == accountId then { a with balance := v } else a).id
          == accountId)
        && ((if a.id == accountId then { a with balance := v } else a).userId
          == userId))
      = (a.id == accountId && a.userId == userId) := by
    intro a
    by_cases hid : a.id = accountId <;> simp [hid]
  rw [show (({ db with
      accounts := db.accounts.map (fun a =>
        if a.id == accountId then { a with balance := v } else a) } : DB).accounts)
      = db.accounts.map (fun a =>
          if a.id == accountId then { a with balance := v } else a) from rfl]
  rw [find?_map_pred_invariant _ _ hp db.accounts]
  cases hfind : db.accounts.find? (fun a => a.id == accountId && a.userId == userId) with
  | none => rfl
  | some a =>
    have hpa := List.find?_some hfind
    have hid : (a.id == accountId) = true := by
      rcases Bool.and_eq_true .. |>.mp hpa with ⟨h1, _⟩
      exact h1
    have hid' : a.id = accountId := by simpa using hid
    simp [hid']

/-- A raw JSON number as delivered by `express.json()`: either a finite
value or one of the non-finite IEEE values. -/
inductive JsonNum where
  | num (q : ℚ)
  | nan
  | posInf
  | negInf
deriving Repr, DecidableEq

/-- The raw request body of `POST /accounts/:accountId/transactions`
as it reaches `validateRequest(transactionCreateSchema)`. -/
structure RawTxBody where
  amount : JsonNum
  type : String
  description : Option String
  accountId : String
deriving Repr, DecidableEq

/-- The `type` enum of `transactionCreateSchema`
(`src/middleware/validation.ts`): note it admits five values, not two. -/
def transactionTypeEnum : List String :=
  ["DEBIT", "CREDIT", "TRANSFER", "WITHDRAWAL", "DEPOSIT"]

/-- `transactionCreateSchema.parse` composed with the `validateRequest`
middleware: `amount` must be a finite number different from zero (zod
`z.number().finite().refine(val => val !== 0)`), `type` must be in the
five-value enum, `description` is optional with at most 500 characters,
`accountId` must be non-empty.  Any violation yields a 400 error; the
source joins all issue messages, modelled here by the first issue's
message under the same "Validation failed: " prefix. -/
def validateRequestTx (b : RawTxBody) : Except ApiError TxInput :=
  match b.amount with
  | JsonNum.nan => Except.error (createError "Validation failed: Amount must be a valid number" 400)
  | JsonNum.posInf => Except.error (createError "Validation failed: Amount must be a valid number" 400)
  | JsonNum.negInf => Except.error (createError "Validation failed: Amount must be a valid number" 400)
  | JsonNum.num q =>
    if q = 0 then
      Except.error (createError "Validation failed: Amount cannot be zero" 400)
    else if ¬ transactionTypeEnum.contains b.type then
      Except.error (createError "Validation failed: Invalid transaction type" 400)
    else if (match b.description with
             | some d => decide (500 < d.length)
             | none => false) then
      Except.error (createError "Validation failed: Description too long" 400)
    else if b.accountId.length = 0 then
      Except.error (createError "Validation failed: Account ID is required" 400)
    else
      Except.ok { type := b.type, amount := q, description := b.description }

/-- The `POST /accounts/:accountId/transactions` pipeline from
`src/routes/transactionRoutes.ts`: `validateRequest(transactionCreateSchema)`
followed by the `createTransaction` controller, which calls
`TransactionService.createTransaction`.  A validation failure is passed
to `next(...)` and never reaches the service. -/
def postTransaction (db : DB) (accountId userId : String) (b : RawTxBody)
    (newId : String) (now : Nat) : DB × Except ApiError TxRecord :=
  match validateRequestTx b with
  | Except.error e => (db, Except.error e)
  | Except.ok tx => createTransaction db accountId userId tx newId now

/-- The relational condition `account: { id: accountId, userId }` used in
nested Prisma `where` clauses: some account row with this id belongs to
this user. -/
def accountOwnedExists (db : DB) (accountId userId : String) : Bool :=
  db.accounts.any (fun a => a.id == accountId && a.userId == userId)

/-- `TransactionService.getTransactionById(transactionId, accountId, userId)`
(`src/services/transactionService.ts`, lines 91-128). -/
def getTransactionById (db : DB) (transactionId accountId userId : String) :
    Except ApiError TxRecord :=
  match db.transactions.find? (fun t =>
      t.id == transactionId && t.accountId == accountId
        && accountOwnedExists db accountId userId) with
  | none => Except.error (createError "Transaction not found" 404)
  | some t => Except.ok t

/-- JavaScript `options?.x || dflt` for an optional numeric option
(`0` is falsy and also falls back to the default). -/
def jsOrNat (o : Option Nat) (dflt : Nat) : Nat :=
  match o with
  | none => dflt
  | some 0 => dflt
  | some n => n

/-- The options object of `getTransactionsByAccountId`. -/
structure ListOptions where
  page : Option Nat
  limit : Option Nat
  type : Option String
deriving Repr, DecidableEq

/-- The pagination metadata returned by the listing endpoints. -/
structure PageMeta where
  page : Nat
  limit : Nat
  total : Nat
  pages : Nat
deriving Repr, DecidableEq

/-- The result shape of `getTransactionsByAccountId`. -/
structure TxPage where
  transactions : List TxRecord
  meta : PageMeta
deriving Repr, DecidableEq

/-- The `where` clause built by `getTransactionsByAccountId`:
`accountId` always, `type` only when supplied. -/
def txMatches (accountId : String) (ty : Option String) (t : TxRecord) : Bool :=
  t.accountId == accountId &&
    (match ty with
     | none => true
     | some s => t.type == s)

/-- `orderBy: { createdAt: 'desc' }`. -/
def newestFirst (ts : List TxRecord) : List TxRecord :=
  ts.mergeSort (fun a b => decide (b.createdAt ≤ a.createdAt))

/-- `Math.ceil(total / limit)` for natural `total` and positive natural
`limit`. -/
def ceilDivJs (total limit : Nat) : Nat :=
  (total + limit - 1) / limit

/-- `TransactionService.getTransactionsByAccountId(accountId, userId, options)`
(`src/services/transactionService.ts`, lines 130-200). -/
def getTransactionsByAccountId (db : DB) (accountId userId : String)
    (options : ListOptions) : Except ApiError TxPage :=
  match findAccountOwned db accountId userId with
  | none => Except.error (createError "Account not found" 404)
  | some _ =>
    let page := jsOrNat options.page 1
    let limit := jsOrNat options.limit 50
    let skip := (page - 1) * limit
    let filtered := db.transactions.filter (txMatches accountId options.type)
    Except.ok
      { transactions := ((newestFirst filtered).drop skip).take limit
        meta :=
          { page := page
            limit := limit
            total := filtered.length
            pages := ceilDivJs filtered.length limit } }

/-- `AccountService.getAccountById(accountId, userId)`
(`src/services/accountService.ts`, lines 68-103): `null` when absent,
403 Forbidden when the row belongs to a different user. -/
def getAccountById (db : DB) (accountId userId : String) :
    Except ApiError (Option Account) :=
  match db.accounts.find? (fun a => a.id == accountId) with
  | none => Except.ok none
  | some a =>
    if a.userId ≠ userId then
      Except.error
        (createError "Forbidden: You can only access your own accounts" 403)
    else Except.ok (some a)

/-- The fields of a PATCH `/v1/accounts/:accountId` request body as they
reach `prisma.account.update`.  The route installs no validation schema,
so the raw body — including a `balance` key, should the client send one —
flows from the controller into the update. -/
structure AccountUpdateBody where
  currency : Option String
  type : Option String
  status : Option String
  balance : Option ℚ
deriving Repr, DecidableEq

/-- Application of an update body to one account row, as
`prisma.account.update({ data })` applies the present keys. -/
def applyAccountUpdate (body : AccountUpdateBody) (a : Account) : Account :=
  { a with
    currency := body.currency.getD a.currency
    type := body.type.getD a.type
    status := body.status.getD a.status
    balance := body.balance.getD a.balance }

/-- `AccountService.updateAccount(accountId, userId, updateData)`
(`src/services/accountService.ts`, lines 130-159) as invoked at runtime
by the `updateAccount` controller
(`src/controllers/accountController.ts`, lines 89-121), which passes
`req.body` through unvalidated. -/
def updateAccount (db : DB) (accountId userId : String)
    (body : AccountUpdateBody) : DB × Except ApiError Account :=
  match getAccountById db accountId userId with
  | Except.error e => (db, Except.error e)
  | Except.ok none => (db, Except.error (createError "Account not found" 404))
  | Except.ok (some a) =>
    ({ db with
        accounts := db.accounts.map (fun x =>
          if x.id == accountId then applyAccountUpdate body x else x) },
     Except.ok (applyAccountUpdate body a))

/-- The body of `POST /v1/accounts` after `accountCreateSchema`. -/
structure AccountCreateInput where
  accountNumber : String
  currency : String
  type : String
deriving Repr, DecidableEq

/-- `AccountService.createAccount(accountData, userId)`
(`src/services/accountService.ts`, lines 12-59): unique account number,
existing user, then a row with `balance: 0` and `status: 'ACTIVE'`. -/
def createAccount (db : DB) (input : AccountCreateInput)
    (userId newId : String) : DB × Except ApiError Account :=
  match db.accounts.find? (fun a => a.accountNumber == input.accountNumber) with
  | some _ => (db, Except.error (createError "Account number already exists" 409))
  | none =>
    if ¬ db.users.contains userId then
      (db, Except.error (createError "User not found" 404))
    else
      let account : Account :=
        { id := newId
          accountNumber := input.accountNumber
          userId := userId
          balance := 0
          currency := input.currency
          type := input.type
          status := "ACTIVE" }
      ({ db with accounts := account :: db.accounts }, Except.ok account)

/-- One `createTransaction` call in a sequence of ledger operations. -/
structure TxRequest where
  accountId : String
  userId : String
  input : TxInput
  newId : String
  now : Nat
deriving Repr, DecidableEq

/-- Running a sequence of `createTransaction` calls against the store;
a failed call leaves the store as it was (its post-state). -/
def runRequests (db : DB) : List TxRequest → DB
  | [] => db
  | r :: rest =>
    runRequests (createTransaction db r.accountId r.userId r.input r.newId r.now).1 rest

/-- Every account row of the store has a nonnegative balance. -/
def NonnegBalances (db : DB) : Prop :=
  ∀ a ∈ db.accounts, 0 ≤ a.balance

instance (db : DB) : Decidable (NonnegBalances db) := by
  unfold NonnegBalances
  infer_instance

/-- Claim C1: a successful `createTransaction` with type DEPOSIT
(resp. WITHDRAWAL) and amount `a` moves the persisted balance from
`oldBalance` to `oldBalance + a` (resp. `oldBalance - a`), and the
created `Transaction` row has `balanceBefore` equal to the pre-operation
balance and `balanceAfter` equal to the new balance; the row insertion
and the balance update land in the same (single) committed post-state. -/
theorem createTransaction_success_spec (db : DB) (accountId userId : String)
    (tx : TxInput) (newId : String) (now : Nat) (db' : DB) (t : TxRecord)
    (hty : tx.type = "DEPOSIT" ∨ tx.type = "WITHDRAWAL")
    (h : createTransaction db accountId userId tx newId now =
          (db', Except.ok t)) :
    ∃ acct, findAccountOwned db accountId userId = some acct ∧
      t.balanceBefore = acct.balance ∧
      t.balanceAfter =
        (if tx.type = "DEPOSIT" then acct.balance + tx.amount
         else acct.balance - tx.amount) ∧
      t.amount = tx.amount ∧
      t.type = tx.type ∧
      db'.transactions = t :: db.transactions ∧
      findAccountOwned db' accountId userId =
        some { acct with balance := t.balanceAfter } := by
  unfold createTransaction at h
  cases hfind : findAccountOwned db accountId userId with
  | none =>
    rw [hfind] at h
    dsimp only at h
    exact absurd (congrArg Prod.snd h) (by simp)
  | some acct =>
    rw [hfind] at h
    dsimp only at h
    by_cases hstat : acct.status ≠ "ACTIVE"
    · rw [if_pos hstat] at h; exact absurd (congrArg Prod.snd h) (by simp)
    · rw [if_neg hstat] at h
      by_cases hamt : tx.amount ≤ 0
      · rw [if_pos hamt] at h; exact absurd (congrArg Prod.snd h) (by simp)
      · rw [if_neg hamt] at h
        by_cases hfund : (tx.type == "WITHDRAWAL" && decide (acct.balance < tx.amount)) = true
        · rw [if_pos hfund] at h; exact absurd (congrArg Prod.snd h) (by simp)
        · rw [if_neg hfund] at h
          have hdb' : db' = _ := ((Prod.mk.injEq _ _ _ _).mp h.symm).1
          have ht : t = _ :=
            (Except.ok.injEq _ _).mp (((Prod.mk.injEq _ _ _ _).mp h.symm).2)
          subst hdb'
          subst ht
          refine ⟨acct, rfl, rfl, ?_, rfl, rfl, rfl, ?_⟩
          · by_cases hdep : tx.type = "DEPOSIT" <;> simp [hdep]
          · rw [findAccountOwned_updateBalance]
            unfold findAccountOwned at hfind
            unfold findAccountOwned insertTransaction
            dsimp only
            rw [hfind]
            rfl

/-- Claim C2: every failed check in `createTransaction` (account absent
or not owned, inactive account, invalid amount, insufficient funds)
short-circuits before the commit: on an error outcome the store is
unchanged — no transaction row is created and the balance is untouched. -/
theorem createTransaction_error_no_effect (db : DB)
    (accountId userId : String) (tx : TxInput) (newId : String) (now : Nat)
    (db' : DB) (e : ApiError)
    (h : createTransaction db accountId userId tx newId now =
          (db', Except.error e)) :
    db' = db := by
  unfold createTransaction at h
  cases hfind : findAccountOwned db accountId userId with
  | none =>
    rw [hfind] at h
    dsimp only at h
    exact (((Prod.mk.injEq _ _ _ _).mp h.symm).1)
  | some acct =>
    rw [hfind] at h
    dsimp only at h
    by_cases hstat : acct.status ≠ "ACTIVE"
    · rw [if_pos hstat] at h
      exact (((Prod.mk.injEq _ _ _ _).mp h.symm).1)
    · rw [if_neg hstat] at h
      by_cases hamt : tx.amount ≤ 0
      · rw [if_pos hamt] at h
        exact (((Prod.mk.injEq _ _ _ _).mp h.symm).1)
      · rw [if_neg hamt] at h
        by_cases hfund : (tx.type == "WITHDRAWAL" && decide (acct.balance < tx.amount)) = true
        · rw [if_pos hfund] at h
          exact (((Prod.mk.injEq _ _ _ _).mp h.symm).1)
        · rw [if_neg hfund] at h
          exact absurd (congrArg Prod.snd h) (by simp)

/-- A sample active account with balance 100, owned by user `u1`. -/
def sampleAcct : Account :=
  { id := "a1", accountNumber := "11111111", userId := "u1", balance := 100,
    currency := "GBP", type := "CHECKING", status := "ACTIVE" }

/-- A sample store holding `sampleAcct` and no transactions. -/
def sampleDb : DB :=
  { users := ["u1"], accounts := [sampleAcct], transactions := [] }

/-- The transaction row created by depositing 5 into `sampleDb`. -/
def sampleDepositRec : TxRecord :=
  { id := "t1", type := "DEPOSIT", amount := 5, description := "d",
    accountId := "a1", balanceBefore := 100, balanceAfter := 105,
    createdAt := 0 }

/-- `sampleDb` after the deposit of 5. -/
def sampleDbAfterDeposit : DB :=
  { users := ["u1"], accounts := [{ sampleAcct with balance := 105 }],
    transactions := [sampleDepositRec] }

/-- Witness for C1: depositing 5 into the sample account with balance 100
yields balance 105 and a matching transaction row, in the same state. -/
theorem createTransaction_success_spec_witness :
    ∃ acct, findAccountOwned sampleDb "a1" "u1" = some acct ∧
      sampleDepositRec.balanceBefore = acct.balance ∧
      sampleDepositRec.balanceAfter =
        (if ("DEPOSIT" : String) = "DEPOSIT" then acct.balance + (5 : ℚ)
         else acct.balance - (5 : ℚ)) ∧
      sampleDepositRec.amount = (5 : ℚ) ∧
      sampleDepositRec.type = "DEPOSIT" ∧
      sampleDbAfterDeposit.transactions = sampleDepositRec :: sampleDb.transactions ∧
      findAccountOwned sampleDbAfterDeposit "a1" "u1" =
        some { acct with balance := sampleDepositRec.balanceAfter } :=
  createTransaction_success_spec sampleDb "a1" "u1"
    { type := "DEPOSIT", amount := 5, description := some "d" } "t1" 0
    sampleDbAfterDeposit sampleDepositRec (Or.inl rfl) (by
      have hfind : findAccountOwned sampleDb "a1" "u1" = some sampleAcct := by
        decide
      unfold createTransaction
      rw [hfind]
      dsimp only
      rw [if_neg (by decide), if_neg (by norm_num), if_neg (by decide)]
      norm_num [updateBalance, insertTransaction, sampleDb, sampleAcct,
        sampleDbAfterDeposit, sampleDepositRec]
      decide)

/-- Witness for C2: a withdrawal of 200 against balance 100 fails with
"Insufficient funds" and leaves the store exactly as it was. -/
theorem createTransaction_error_no_effect_witness :
    createTransaction sampleDb "a1" "u1"
        { type := "WITHDRAWAL", amount := 200, description := none } "t1" 0 =
      (sampleDb, Except.error (createError "Insufficient funds" 400)) ∧
    sampleDb = sampleDb :=
  ⟨by decide,
   createTransaction_error_no_effect sampleDb "a1" "u1"
     { type := "WITHDRAWAL", amount := 200, description := none } "t1" 0
     sampleDb (createError "Insufficient funds" 400) (by decide)⟩

/-- Claim C4: for an owned ACTIVE account and a positive withdrawal
amount, `createTransaction` fails with "Insufficient funds" exactly when
the amount strictly exceeds the balance; any amount up to and including
the full balance succeeds, and withdrawing exactly the balance leaves
the persisted balance at 0. -/
theorem withdrawal_insufficient_iff (db : DB) (accountId userId : String)
    (tx : TxInput) (newId : String) (now : Nat) (acct : Account)
    (hfind : findAccountOwned db accountId userId = some acct)
    (hstat : acct.status = "ACTIVE")
    (hty : tx.type = "WITHDRAWAL")
    (hpos : 0 < tx.amount) :
    ((createTransaction db accountId userId tx newId now).2 =
        Except.error (createError "Insufficient funds" 400) ↔
      acct.balance < tx.amount) ∧
    (tx.amount ≤ acct.balance →
      ∃ t, (createTransaction db accountId userId tx newId now).2 = Except.ok t ∧
        t.balanceAfter = acct.balance - tx.amount ∧
        findAccountOwned (createTransaction db accountId userId tx newId now).1
            accountId userId =
          some { acct with balance := acct.balance - tx.amount }) ∧
    (tx.amount = acct.balance →
      ∃ t, (createTransaction db accountId userId tx newId now).2 = Except.ok t ∧
        t.balanceAfter = 0 ∧
        findAccountOwned (createTransaction db accountId userId tx newId now).1
            accountId userId =
          some { acct with balance := 0 }) := by
  have hnneg : ¬ tx.amount ≤ 0 := not_le.mpr hpos
  unfold createTransaction
  rw [hfind]
  dsimp only
  rw [if_neg (by simp [hstat]), if_neg hnneg, hty]
  have hW : (("WITHDRAWAL" : String) == "WITHDRAWAL") = true := by decide
  have hD : (("WITHDRAWAL" : String) == "DEPOSIT") = false := by decide
  simp only [hW, Bool.true_and, hD, Bool.false_eq_true, if_false]
  by_cases hlt : acct.balance < tx.amount
  · rw [if_pos (by simpa using hlt)]
    refine ⟨⟨fun _ => hlt, fun _ => rfl⟩, fun hle => ?_, fun heq => ?_⟩
    · exact absurd hle (not_le.mpr hlt)
    · exact absurd hlt (by rw [heq]; exact lt_irrefl _)
  · rw [if_neg (by simpa using hlt)]
    have hpost : findAccountOwned
        (updateBalance
          (insertTransaction db
            { id := newId, type := "WITHDRAWAL", amount := tx.amount,
              description := jsDefaultStr tx.description ("WITHDRAWAL" ++ " transaction"),
              accountId := accountId, balanceBefore := acct.balance,
              balanceAfter := acct.balance - tx.amount, createdAt := now })
          accountId (acct.balance - tx.amount)) accountId userId =
        some { acct with balance := acct.balance - tx.amount } := by
      rw [findAccountOwned_updateBalance]
      unfold findAccountOwned at hfind
      unfold findAccountOwned insertTransaction
      dsimp only
      rw [hfind]
      rfl
    refine ⟨⟨fun habs => absurd habs (by simp), fun habs => absurd habs hlt⟩,
      fun _ => ⟨_, rfl, rfl, hpost⟩, fun heq => ⟨_, rfl, ?_, ?_⟩⟩
    · dsimp only
      rw [heq, sub_self]
    · dsimp only
      rw [heq] at hpost ⊢
      rw [sub_self] at hpost ⊢
      exact hpost

/-- Witness for C4: withdrawing the full balance 100 from the sample
account succeeds and leaves the persisted balance at 0. -/
theorem withdrawal_insufficient_iff_witness :
    ∃ t, (createTransaction sampleDb "a1" "u1"
        { type := "WITHDRAWAL", amount := 100, description := none } "t1" 0).2 =
        Except.ok t ∧
      t.balanceAfter = 0 ∧
      findAccountOwned (createTransaction sampleDb "a1" "u1"
          { type := "WITHDRAWAL", amount := 100, description := none } "t1" 0).1
          "a1" "u1" =
        some { sampleAcct with balance := 0 } :=
  (withdrawal_insufficient_iff sampleDb "a1" "u1"
      { type := "WITHDRAWAL", amount := 100, description := none } "t1" 0
      sampleAcct (by decide) rfl rfl (by decide)).2.2 rfl

/-- Claim C7: a transaction against an owned account whose status is not
ACTIVE always fails with the inactive-account domain error, regardless of
the transaction's type, amount, or the available funds, and the store is
unchanged. -/
theorem createTransaction_inactive_always_fails (db : DB)
    (accountId userId : String) (tx : TxInput) (newId : String) (now : Nat)
    (acct : Account)
    (hfind : findAccountOwned db accountId userId = some acct)
    (hstat : acct.status ≠ "ACTIVE") :
    createTransaction db accountId userId tx newId now =
      (db, Except.error
        (createError "Cannot perform transactions on inactive account" 400)) := by
  unfold createTransaction
  rw [hfind]
  dsimp only
  rw [if_pos hstat]

/-- A sample store whose only account is SUSPENDED. -/
def suspendedDb : DB :=
  { users := ["u1"], accounts := [{ sampleAcct with status := "SUSPENDED" }],
    transactions := [] }

/-- Witness for C7: a deposit of 5 into the suspended account fails with
the inactive-account error and changes nothing. -/
theorem createTransaction_inactive_always_fails_witness :
    createTransaction suspendedDb "a1" "u1"
        { type := "DEPOSIT", amount := 5, description := none } "t1" 0 =
      (suspendedDb, Except.error
        (createError "Cannot perform transactions on inactive account" 400)) :=
  createTransaction_inactive_always_fails suspendedDb "a1" "u1"
    { type := "DEPOSIT", amount := 5, description := none } "t1" 0
    { sampleAcct with status := "SUSPENDED" } (by decide) (by decide)

/-- Claim C8: an absent account and an account owned by a different user
produce the same caller-visible NotFound outcome in `createTransaction`,
`getTransactionById` and `getTransactionsByAccountId`; the
ownership-scoped lookup precedes every other check, so the error does
not depend on the transaction payload or listing options. -/
theorem ownership_indistinguishable_from_absence
    (db₁ db₂ : DB) (accountId userId transactionId : String)
    (opts : ListOptions)
    (habsent : ∀ a ∈ db₁.accounts, a.id ≠ accountId)
    (hother : ∀ a ∈ db₂.accounts, a.id = accountId → a.userId ≠ userId) :
    (∀ tx newId now, createTransaction db₁ accountId userId tx newId now =
        (db₁, Except.error (createError "Account not found" 404))) ∧
    (∀ tx newId now, createTransaction db₂ accountId userId tx newId now =
        (db₂, Except.error (createError "Account not found" 404))) ∧
    getTransactionById db₁ transactionId accountId userId =
      Except.error (createError "Transaction not found" 404) ∧
    getTransactionById db₂ transactionId accountId userId =
      Except.error (createError "Transaction not found" 404) ∧
    getTransactionsByAccountId db₁ accountId userId opts =
      Except.error (createError "Account not found" 404) ∧
    getTransactionsByAccountId db₂ accountId userId opts =
      Except.error (createError "Account not found" 404) := by
  have hfind₁ : findAccountOwned db₁ accountId userId = none := by
    unfold findAccountOwned
    rw [List.find?_eq_none]
    intro a ha
    simp only [Bool.and_eq_true, beq_iff_eq, not_and]
    intro h1
    exact absurd h1 (habsent a ha)
  have hfind₂ : findAccountOwned db₂ accountId userId = none := by
    unfold findAccountOwned
    rw [List.find?_eq_none]
    intro a ha
    simp only [Bool.and_eq_true, beq_iff_eq, not_and]
    exact hother a ha
  have hown₁ : accountOwnedExists db₁ accountId userId = false := by
    unfold accountOwnedExists
    rw [List.any_eq_false]
    intro a ha
    simp only [Bool.and_eq_true, beq_iff_eq, not_and]
    intro h1
    exact absurd h1 (habsent a ha)
  have hown₂ : accountOwnedExists db₂ accountId userId = false := by
    unfold accountOwnedExists
    rw [List.any_eq_false]
    intro a ha
    simp only [Bool.and_eq_true, beq_iff_eq, not_and]
    exact hother a ha
  have hg₁ : db₁.transactions.find? (fun t =>
      t.id == transactionId && t.accountId == accountId
        && accountOwnedExists db₁ accountId userId) = none := by
    rw [List.find?_eq_none]
    intro t ht
    rw [hown₁]
    simp
  have hg₂ : db₂.transactions.find? (fun t =>
      t.id == transactionId && t.accountId == accountId
        && accountOwnedExists db₂ accountId userId) = none := by
    rw [List.find?_eq_none]
    intro t ht
    rw [hown₂]
    simp
  refine ⟨fun tx newId now => ?_, fun tx newId now => ?_, ?_, ?_, ?_, ?_⟩
  · unfold createTransaction
    rw [hfind₁]
  · unfold createTransaction
    rw [hfind₂]
  · unfold getTransactionById
    rw [hg₁]
  · unfold getTransactionById
    rw [hg₂]
  · unfold getTransactionsByAccountId
    rw [hfind₁]
  · unfold getTransactionsByAccountId
    rw [hfind₂]

/-- A store with no accounts at all. -/
def emptyDb : DB := { users := [], accounts := [], transactions := [] }

/-- A store whose only account `a1` belongs to user `u2`, not `u1`. -/
def otherOwnerDb : DB :=
  { users := ["u1", "u2"], accounts := [{ sampleAcct with userId := "u2" }],
    transactions := [] }

/-- Witness for C8: against both the empty store and the store whose
account belongs to another user, caller `u1` gets the identical
NotFound errors from all three operations. -/
theorem ownership_indistinguishable_witness :
    createTransaction emptyDb "a1" "u1"
        { type := "DEPOSIT", amount := 5, description := none } "t1" 0 =
      (emptyDb, Except.error (createError "Account not found" 404)) ∧
    createTransaction otherOwnerDb "a1" "u1"
        { type := "DEPOSIT", amount := 5, description := none } "t1" 0 =
      (otherOwnerDb, Except.error (createError "Account not found" 404)) ∧
    getTransactionById emptyDb "t9" "a1" "u1" =
      Except.error (createError "Transaction not found" 404) ∧
    getTransactionById otherOwnerDb "t9" "a1" "u1" =
      Except.error (createError "Transaction not found" 404) ∧
    getTransactionsByAccountId emptyDb "a1" "u1"
        { page := none, limit := none, type := none } =
      Except.error (createError "Account not found" 404) ∧
    getTransactionsByAccountId otherOwnerDb "a1" "u1"
        { page := none, limit := none, type := none } =
      Except.error (createError "Account not found" 404) := by
  obtain ⟨h1, h2, h3, h4, h5, h6⟩ :=
    ownership_indistinguishable_from_absence emptyDb otherOwnerDb
      "a1" "u1" "t9" { page := none, limit := none, type := none }
      (by decide) (by decide)
  exact ⟨h1 _ _ _, h2 _ _ _, h3, h4, h5, h6⟩

/-- Counterexample for C5: the negative amount -5 is non-positive, yet it
passes `transactionCreateSchema` (which only rejects zero and non-finite
numbers), and the request then fails the ownership lookup with a 404 —
not a validation check. -/
theorem validation_accepts_negative_amount :
    validateRequestTx
        { amount := JsonNum.num (-5), type := "DEPOSIT", description := none,
          accountId := "a1" } =
      Except.ok { type := "DEPOSIT", amount := -5, description := none } ∧
    postTransaction emptyDb "a1" "u1"
        { amount := JsonNum.num (-5), type := "DEPOSIT", description := none,
          accountId := "a1" } "t1" 0 =
      (emptyDb, Except.error (createError "Account not found" 404)) := by
  constructor <;> decide

/-- Claim C5 (amended): a zero or non-finite amount fails schema
validation with a 400 error before any service check runs, leaving the
store untouched; a negative amount passes schema validation and is
rejected by the service's own positivity check — a business-rule check
that runs after the ownership and status checks, so an absent or unowned
account yields the 404 ownership error instead. -/
theorem amount_validation_amended (b : RawTxBody) (db : DB)
    (accountId userId newId : String) (now : Nat) (q : ℚ) (acct : Account) :
    ((b.amount = JsonNum.nan ∨ b.amount = JsonNum.posInf ∨
        b.amount = JsonNum.negInf ∨ b.amount = JsonNum.num 0) →
      ∃ e, e.statusCode = 400 ∧ validateRequestTx b = Except.error e ∧
        postTransaction db accountId userId b newId now =
          (db, Except.error e)) ∧
    (b.amount = JsonNum.num q → q < 0 →
      transactionTypeEnum.contains b.type = true →
      (∀ d, b.description = some d → d.length ≤ 500) →
      b.accountId.length ≠ 0 →
      validateRequestTx b =
        Except.ok { type := b.type, amount := q, description := b.description } ∧
      (findAccountOwned db accountId userId = some acct →
        acct.status = "ACTIVE" →
        postTransaction db accountId userId b newId now =
          (db, Except.error
            (createError "Transaction amount must be positive" 400))) ∧
      (findAccountOwned db accountId userId = none →
        postTransaction db accountId userId b newId now =
          (db, Except.error (createError "Account not found" 404)))) := by
  constructor
  · intro hbad
    rcases hbad with h | h | h | h
    · exact ⟨createError "Validation failed: Amount must be a valid number" 400,
        rfl, by unfold validateRequestTx; rw [h],
        by unfold postTransaction validateRequestTx; rw [h]⟩
    · exact ⟨createError "Validation failed: Amount must be a valid number" 400,
        rfl, by unfold validateRequestTx; rw [h],
        by unfold postTransaction validateRequestTx; rw [h]⟩
    · exact ⟨createError "Validation failed: Amount must be a valid number" 400,
        rfl, by unfold validateRequestTx; rw [h],
        by unfold postTransaction validateRequestTx; rw [h]⟩
    · refine ⟨createError "Validation failed: Amount cannot be zero" 400,
        rfl, ?_, ?_⟩
      · unfold validateRequestTx
        rw [h]
        dsimp only
        rw [if_pos rfl]
      · unfold postTransaction validateRequestTx
        rw [h]
        dsimp only
        rw [if_pos rfl]
  · intro hb hneg htyp hdesc haid
    have hval : validateRequestTx b =
        Except.ok { type := b.type, amount := q, description := b.description } := by
      unfold validateRequestTx
      rw [hb]
      dsimp only
      rw [if_neg (by exact fun h0 => absurd h0 (ne_of_lt hneg)),
          if_neg (fun hc => hc htyp),
          if_neg ?hde,
          if_neg haid]
      case hde =>
        cases hd : b.description with
        | none => simp
        | some d =>
          have := hdesc d hd
          simp [Nat.not_lt.mpr this]
    refine ⟨hval, fun hfind hstat => ?_, fun hfind => ?_⟩
    · unfold postTransaction
      rw [hval]
      unfold createTransaction
      rw [hfind]
      dsimp only
      rw [if_neg (by simp [hstat]), if_pos (le_of_lt hneg)]
    · unfold postTransaction
      rw [hval]
      unfold createTransaction
      rw [hfind]

/-- Witness for C5 (amended): amount 0 fails validation before any
service check; amount -5 passes validation and is rejected by the
service's positivity check against the owned ACTIVE sample account. -/
theorem amount_validation_amended_witness :
    (∃ e, e.statusCode = 400 ∧
      validateRequestTx
          { amount := JsonNum.num 0, type := "DEPOSIT", description := none,
            accountId := "a1" } = Except.error e ∧
      postTransaction sampleDb "a1" "u1"
          { amount := JsonNum.num 0, type := "DEPOSIT", description := none,
            accountId := "a1" } "t1" 0 = (sampleDb, Except.error e)) ∧
    (validateRequestTx
        { amount := JsonNum.num (-5), type := "DEPOSIT", description := none,
          accountId := "a1" } =
      Except.ok { type := "DEPOSIT", amount := -5, description := none } ∧
    postTransaction sampleDb "a1" "u1"
        { amount := JsonNum.num (-5), type := "DEPOSIT", description := none,
          accountId := "a1" } "t1" 0 =
      (sampleDb, Except.error
        (createError "Transaction amount must be positive" 400))) := by
  constructor
  · exact (amount_validation_amended
      { amount := JsonNum.num 0, type := "DEPOSIT", description := none,
        accountId := "a1" } sampleDb "a1" "u1" "t1" 0 0 sampleAcct).1
      (Or.inr (Or.inr (Or.inr rfl)))
  · have h := (amount_validation_amended
      { amount := JsonNum.num (-5), type := "DEPOSIT", description := none,
        accountId := "a1" } sampleDb "a1" "u1" "t1" 0 (-5) sampleAcct).2
      rfl (by norm_num) (by decide) (fun d hd => Option.noConfusion hd)
      (by decide)
    exact ⟨h.1, h.2.1 (by decide) rfl⟩

/-- Claim C3 (code bug): the PATCH /v1/accounts/:accountId route installs
no validation schema, so a request body containing a `balance` key flows
from the controller straight into `prisma.account.update`: against the
sample store it rewrites the persisted balance from 100 to 999999, even
though the service's declared update fields are only currency, type and
status. -/
theorem updateAccount_balance_mass_assignment :
    (updateAccount sampleDb "a1" "u1"
        { currency := none, type := none, status := none,
          balance := some 999999 }).2 =
      Except.ok { sampleAcct with balance := 999999 } ∧
    (updateAccount sampleDb "a1" "u1"
        { currency := none, type := none, status := none,
          balance := some 999999 }).1.accounts =
      [{ sampleAcct with balance := 999999 }] := by
  constructor <;> decide

/-- A store holding one freshly created account (balance 0, ACTIVE). -/
def freshDb : DB :=
  { users := ["u1"], accounts := [{ sampleAcct with balance := 0 }],
    transactions := [] }

/-- The transaction row persisted by the unexpected TRANSFER below. -/
def transferRec : TxRecord :=
  { id := "t1", type := "TRANSFER", amount := 5,
    description := "TRANSFER transaction", accountId := "a1",
    balanceBefore := 0, balanceAfter := -5, createdAt := 0 }

/-- `freshDb` after the unexpected TRANSFER: balance -5. -/
def freshDbAfterTransfer : DB :=
  { users := ["u1"], accounts := [{ sampleAcct with balance := -5 }],
    transactions := [transferRec] }

/-- Claim C6 (code bug): type "TRANSFER" is not DEPOSIT or WITHDRAWAL,
yet it passes `transactionCreateSchema` (whose enum has five values) and
the service — whose funds check fires only for "WITHDRAWAL" and which
treats every non-"DEPOSIT" type as a subtraction — creates the
transaction instead of failing with a 400 invalid-type error: a TRANSFER
of 5 against balance 0 is accepted, persists a row of type "TRANSFER",
and drives the balance to -5. -/
theorem transfer_type_bypasses_funds_check :
    validateRequestTx
        { amount := JsonNum.num 5, type := "TRANSFER", description := none,
          accountId := "a1" } =
      Except.ok { type := "TRANSFER", amount := 5, description := none } ∧
    postTransaction freshDb "a1" "u1"
        { amount := JsonNum.num 5, type := "TRANSFER", description := none,
          accountId := "a1" } "t1" 0 =
      (freshDbAfterTransfer, Except.ok transferRec) ∧
    findAccountOwned freshDbAfterTransfer "a1" "u1" =
      some { sampleAcct with balance := -5 } := by
  have hval : validateRequestTx
      { amount := JsonNum.num 5, type := "TRANSFER", description := none,
        accountId := "a1" } =
      Except.ok { type := "TRANSFER", amount := 5, description := none } := by
    decide
  have hfind : findAccountOwned freshDb "a1" "u1" =
      some { sampleAcct with balance := 0 } := by decide
  refine ⟨hval, ?_, by decide⟩
  unfold postTransaction
  rw [hval]
  unfold createTransaction
  rw [hfind]
  dsimp only
  rw [if_neg (by decide), if_neg (by norm_num), if_neg (by decide)]
  norm_num [updateBalance, insertTransaction, freshDb, sampleAcct,
    freshDbAfterTransfer, transferRec]
  decide

/-- One ledger operation with type DEPOSIT or WITHDRAWAL preserves
nonnegativity of every stored balance, whether it succeeds or fails. -/
theorem createTransaction_preserves_nonneg (db : DB)
    (accountId userId newId : String) (now : Nat) (tx : TxInput)
    (hty : tx.type = "DEPOSIT" ∨ tx.type = "WITHDRAWAL")
    (h0 : NonnegBalances db) :
    NonnegBalances (createTransaction db accountId userId tx newId now).1 := by
  unfold createTransaction
  cases hfind : findAccountOwned db accountId userId with
  | none => exact h0
  | some acct =>
    dsimp only
    by_cases hstat : acct.status ≠ "ACTIVE"
    · rw [if_pos hstat]; exact h0
    · rw [if_neg hstat]
      by_cases hamt : tx.amount ≤ 0
      · rw [if_pos hamt]; exact h0
      · rw [if_neg hamt]
        by_cases hfund : (tx.type == "WITHDRAWAL" && decide (acct.balance < tx.amount)) = true
        · rw [if_pos hfund]; exact h0
        · rw [if_neg hfund]
          have hacct : acct ∈ db.accounts := by
            unfold findAccountOwned at hfind
            exact List.mem_of_find?_eq_some hfind
          have haccbal : 0 ≤ acct.balance := h0 acct hacct
          have hpos : 0 < tx.amount := not_le.mp hamt
          have hnew : 0 ≤ (if tx.type == "DEPOSIT" then acct.balance + tx.amount
              else acct.balance - tx.amount) := by
            rcases hty with hdep | hwdr
            · rw [hdep]
              simp only [beq_self_eq_true, if_true]
              positivity
            · rw [hwdr] at hfund ⊢
              have hle : tx.amount ≤ acct.balance := by
                by_contra hcon
                push_neg at hcon
                exact hfund (by simp [hcon])
              simp only [show (("WITHDRAWAL" : String) == "DEPOSIT") = false from by decide,
                Bool.false_eq_true, if_false]
              exact sub_nonneg.mpr hle
          intro a ha
          unfold updateBalance insertTransaction at ha
          dsimp only at ha
          rcases List.mem_map.mp ha with ⟨b, hb, hfb⟩
          by_cases hid : b.id == accountId
          · rw [if_pos hid] at hfb
            rw [← hfb]
            exact hnew
          · rw [if_neg hid] at hfb
            rw [← hfb]
            exact h0 b hb

/-- Claim C10: an account is created with balance 0, and any sequence of
`createTransaction` calls whose types are DEPOSIT or WITHDRAWAL keeps
every stored balance nonnegative — deposits require a positive amount
and withdrawals require the amount not to exceed the balance, so no
reachable ledger state has a negative balance. -/
theorem nonneg_balance_invariant (db : DB) (rs : List TxRequest)
    (h0 : NonnegBalances db)
    (hty : ∀ r ∈ rs, r.input.type = "DEPOSIT" ∨ r.input.type = "WITHDRAWAL") :
    NonnegBalances (runRequests db rs) ∧
    (∀ input userId newId db' acct,
      createAccount db input userId newId = (db', Except.ok acct) →
      acct.balance = 0) := by
  constructor
  · induction rs generalizing db with
    | nil => exact h0
    | cons r rest ih =>
      exact ih _
        (createTransaction_preserves_nonneg db r.accountId r.userId r.newId
          r.now r.input (hty r (List.mem_cons_self r rest)) h0)
        (fun r' hr' => hty r' (List.mem_cons_of_mem r hr'))
  · intro input userId newId db' acct h
    unfold createAccount at h
    cases hdup : db.accounts.find? (fun a => a.accountNumber == input.accountNumber) with
    | some a =>
      rw [hdup] at h
      exact absurd (congrArg Prod.snd h) (by simp)
    | none =>
      rw [hdup] at h
      dsimp only at h
      by_cases hu : db.users.contains userId = true
      · rw [if_neg (fun hc => hc hu)] at h
        have ha : acct = _ :=
          (Except.ok.injEq _ _).mp (((Prod.mk.injEq _ _ _ _).mp h.symm).2)
        rw [ha]
      · rw [if_pos hu] at h
        exact absurd (congrArg Prod.snd h) (by simp)

/-- Witness for C10: starting from the fresh zero-balance store, a
deposit of 5 followed by a withdrawal of 3 keeps all balances
nonnegative. -/
theorem nonneg_balance_invariant_witness :
    NonnegBalances (runRequests freshDb
      [{ accountId := "a1", userId := "u1",
         input := { type := "DEPOSIT", amount := 5, description := none },
         newId := "t1", now := 1 },
       { accountId := "a1", userId := "u1",
         input := { type := "WITHDRAWAL", amount := 3, description := none },
         newId := "t2", now := 2 }]) :=
  (nonneg_balance_invariant freshDb
    [{ accountId := "a1", userId := "u1",
       input := { type := "DEPOSIT", amount := 5, description := none },
       newId := "t1", now := 1 },
     { accountId := "a1", userId := "u1",
       input := { type := "WITHDRAWAL", amount := 3, description := none },
       newId := "t2", now := 2 }]
    (by decide) (by decide)).1

/-- `jsOrNat` of a positive default is positive. -/
theorem jsOrNat_pos (o : Option Nat) (d : Nat) (hd : 0 < d) :
    0 < jsOrNat o d := by
  cases o with
  | none => exact hd
  | some k =>
    cases k with
    | zero => exact hd
    | succ m => exact Nat.succ_pos m

/-- `(t + l - 1) / l` is the ceiling of the rational `t / l`, matching
JavaScript's `Math.ceil(total / limit)` for positive `limit`. -/
theorem ceilDivJs_eq_ceil (t l : Nat) (hl : 0 < l) :
    ceilDivJs t l = Nat.ceil ((t : ℚ) / (l : ℚ)) := by
  have hceil : ceilDivJs t l = (t + l - 1) / l := rfl
  rcases Nat.eq_zero_or_pos t with ht | ht
  · subst ht
    have h1 : ceilDivJs 0 l = 0 := by
      rw [hceil]
      exact Nat.div_eq_of_lt (by omega)
    rw [h1]
    simp
  · have hl' : (0 : ℚ) < (l : ℚ) := by exact_mod_cast hl
    set n := ceilDivJs t l with hn
    have hub : t ≤ n * l := by
      by_contra hcon
      push_neg at hcon
      have h2 : (n + 1) * l ≤ t + l - 1 := by
        have hexp : (n + 1) * l = n * l + l := by ring
        omega
      have h3 : n + 1 ≤ (t + l - 1) / l := (Nat.le_div_iff_mul_le hl).mpr h2
      rw [← hceil] at h3
      omega
    have hn1 : 1 ≤ n := by
      have h2 : 1 * l ≤ t + l - 1 := by
        have hexp : 1 * l = l := one_mul l
        omega
      have h3 : 1 ≤ (t + l - 1) / l := (Nat.le_div_iff_mul_le hl).mpr h2
      rw [← hceil] at h3
      exact h3
    have hlb : (n - 1) * l < t := by
      by_contra hcon
      push_neg at hcon
      have hs : n - 1 + 1 = n := Nat.succ_pred_eq_of_pos hn1
      have hexp : (n - 1) * l + l = n * l := by
        calc (n - 1) * l + l = (n - 1 + 1) * l := by ring
        _ = n * l := by rw [hs]
      have h2 : t + l - 1 < n * l := by omega
      have h3 : (t + l - 1) / l < n := (Nat.div_lt_iff_lt_mul hl).mpr h2
      rw [← hceil] at h3
      omega
    symm
    rw [Nat.ceil_eq_iff (by omega)]
    constructor
    · rw [lt_div_iff₀ hl']
      exact_mod_cast hlb
    · rw [div_le_iff₀ hl']
      exact_mod_cast hub

/-- Claim C9: listing transactions with page `p` and limit `l` returns at
most `l` rows, newest-first, all belonging to the account and matching
the optional type filter; the metadata reports page `p`, limit `l`, the
total row count and `pages = ceil(total / limit)`; omitted options
default to page 1 and limit 50; a page past the last populated one
yields an empty list, not an error. -/
theorem getTransactions_pagination_spec (db : DB) (accountId userId : String)
    (opts : ListOptions) (acct : Account)
    (hfind : findAccountOwned db accountId userId = some acct) :
    ∃ result,
      getTransactionsByAccountId db accountId userId opts =
        Except.ok result ∧
      result.meta.page = jsOrNat opts.page 1 ∧
      result.meta.limit = jsOrNat opts.limit 50 ∧
      (opts.page = none → result.meta.page = 1) ∧
      (opts.limit = none → result.meta.limit = 50) ∧
      result.meta.total =
        (db.transactions.filter (txMatches accountId opts.type)).length ∧
      result.meta.pages =
        Nat.ceil ((result.meta.total : ℚ) / (result.meta.limit : ℚ)) ∧
      result.transactions.length ≤ result.meta.limit ∧
      List.Pairwise (fun a b => b.createdAt ≤ a.createdAt)
        result.transactions ∧
      (∀ t ∈ result.transactions, t.accountId = accountId ∧
        ∀ s, opts.type = some s → t.type = s) ∧
      ((result.meta.page - 1) * result.meta.limit ≥ result.meta.total →
        result.transactions = []) := by
  unfold getTransactionsByAccountId
  rw [hfind]
  dsimp only
  refine ⟨_, rfl, rfl, rfl, ?_, ?_, rfl, ?_, ?_, ?_, ?_, ?_⟩
  · intro h
    rw [h]
    rfl
  · intro h
    rw [h]
    rfl
  · dsimp only
    exact ceilDivJs_eq_ceil _ _ (jsOrNat_pos _ _ (by omega))
  · dsimp only
    rw [List.length_take]
    exact min_le_left _ _
  · dsimp only
    have htrans : ∀ a b c : TxRecord,
        decide (b.createdAt ≤ a.createdAt) = true →
        decide (c.createdAt ≤ b.createdAt) = true →
        decide (c.createdAt ≤ a.createdAt) = true := by
      intro a b c hab hbc
      exact decide_eq_true
        (le_trans (of_decide_eq_true hbc) (of_decide_eq_true hab))
    have htotal : ∀ a b : TxRecord,
        (decide (b.createdAt ≤ a.createdAt)
          || decide (a.createdAt ≤ b.createdAt)) = true := by
      intro a b
      rcases Nat.le_total b.createdAt a.createdAt with h | h <;> simp [h]
    have hs := List.sorted_mergeSort htrans htotal
      (db.transactions.filter (txMatches accountId opts.type))
    have hsub : List.Sublist
        (((newestFirst
          (db.transactions.filter (txMatches accountId opts.type))).drop
            ((jsOrNat opts.page 1 - 1) * jsOrNat opts.limit 50)).take
          (jsOrNat opts.limit 50))
        (newestFirst (db.transactions.filter (txMatches accountId opts.type))) :=
      (List.take_sublist _ _).trans (List.drop_sublist _ _)
    exact ((hs.sublist hsub).imp fun h => of_decide_eq_true h)
  · intro t ht
    dsimp only at ht
    have h1 : t ∈ newestFirst
        (db.transactions.filter (txMatches accountId opts.type)) :=
      ((List.take_sublist _ _).trans (List.drop_sublist _ _)).subset ht
    have h2 : t ∈ db.transactions.filter (txMatches accountId opts.type) :=
      List.mem_mergeSort.mp h1
    have h3 := (List.mem_filter.mp h2).2
    unfold txMatches at h3
    rcases Bool.and_eq_true .. |>.mp h3 with ⟨hacc, hty⟩
    refine ⟨by simpa using hacc, ?_⟩
    intro s hs
    rw [hs] at hty
    simpa using hty
  · intro hge
    dsimp only at hge ⊢
    have hlen : (newestFirst
        (db.transactions.filter (txMatches accountId opts.type))).length =
        (db.transactions.filter (txMatches accountId opts.type)).length := by
      unfold newestFirst
      exact List.length_mergeSort _
    rw [List.drop_eq_nil_of_le (by rw [hlen]; exact hge), List.take_nil]


/-- Three transactions on the sample account, for exercising pagination. -/
def pagedDb : DB :=
  { users := ["u1"], accounts := [sampleAcct],
    transactions :=
      [{ id := "t1", type := "DEPOSIT", amount := 5, description := "d",
         accountId := "a1", balanceBefore := 0, balanceAfter := 5,
         createdAt := 1 },
       { id := "t2", type := "WITHDRAWAL", amount := 2, description := "d",
         accountId := "a1", balanceBefore := 5, balanceAfter := 3,
         createdAt := 2 },
       { id := "t3", type := "DEPOSIT", amount := 4, description := "d",
         accountId := "a1", balanceBefore := 3, balanceAfter := 7,
         createdAt := 3 }] }

/-- Witness for C9: page 2 with limit 2 over the three stored
transactions satisfies every clause of the pagination contract. -/
theorem getTransactions_pagination_spec_witness :
    ∃ result,
      getTransactionsByAccountId pagedDb "a1" "u1"
          { page := some 2, limit := some 2, type := none } =
        Except.ok result ∧
      result.meta.page = jsOrNat (some 2) 1 ∧
      result.meta.limit = jsOrNat (some 2) 50 ∧
      ((some 2 : Option Nat) = none → result.meta.page = 1) ∧
      ((some 2 : Option Nat) = none → result.meta.limit = 50) ∧
      result.meta.total =
        (pagedDb.transactions.filter (txMatches "a1" none)).length ∧
      result.meta.pages =
        Nat.ceil ((result.meta.total : ℚ) / (result.meta.limit : ℚ)) ∧
      result.transactions.length ≤ result.meta.limit ∧
      List.Pairwise (fun a b => b.createdAt ≤ a.createdAt)
        result.transactions ∧
      (∀ t ∈ result.transactions, t.accountId = "a1" ∧
        ∀ s, (none : Option String) = some s → t.type = s) ∧
      ((result.meta.page - 1) * result.meta.limit ≥ result.meta.total →
        result.transactions = []) :=
  getTransactions_pagination_spec pagedDb "a1" "u1"
    { page := some 2, limit := some 2, type := none } sampleAcct (by decide)

end EagleBank
